import Mathlib

/-!
# Recommendation gateway: fallback policy and degraded mode

A shallow embedding of `recommendation-service/index.js`.

The gateway talks to three things it does not own: the two circuit breakers
(`userBreaker`, `contentBreaker`, objects of the `opossum` library) and the
trending service (reached through `axios`).  One run of a handler is modelled
on an explicit environment that says what each of these does when the handler
touches it: what `breaker.opened` reads, what `breaker.fire` emits and how it
settles, how `fetchTrending` settles.  The handler's own state, the
`breakerMetrics` counters, is passed in and out explicitly, and every remote
operation the handler starts is written to a log.
-/

namespace Recommendation

/-! ## Payloads -/

/-- The profile payload: `{ userId, preferences }`. -/
structure UserPreferences where
  userId : String
  preferences : List String
deriving DecidableEq, Repr

/-- One element of the content payload: `{ movieId, title, genre }`. -/
structure Movie where
  movieId : Nat
  title : String
  genre : String
deriving DecidableEq, Repr

/-- The ways an awaited remote operation rejects. -/
inductive CallError where
  | fastFailRejection
  | callTimeout
  | callError (message : String)
deriving DecidableEq, Repr

/-! ## Configuration (lines 11-28) -/

/-- The options object handed to both breakers. -/
structure BreakerOptions where
  timeout : Nat
  errorThresholdPercentage : Nat
  resetTimeout : Nat
  rollingCountTimeout : Nat
  rollingCountBuckets : Nat
deriving DecidableEq, Repr

/-- The constant `breakerOptions`. -/
def breakerOptions : BreakerOptions where
  timeout := 2000
  errorThresholdPercentage := 50
  resetTimeout := 30000
  rollingCountTimeout := 10000
  rollingCountBuckets := 10

/-! ## Manual metrics tracking (lines 62-105) -/

/-- One entry of `breakerMetrics`. -/
structure Counters where
  successes : Nat
  failures : Nat
  halfOpenTrials : Nat
deriving DecidableEq, Repr

/-- The object `breakerMetrics`. -/
structure BreakerMetrics where
  user : Counters
  content : Counters
deriving DecidableEq, Repr

/-- The initial value of `breakerMetrics`. -/
def BreakerMetrics.initial : BreakerMetrics where
  user := { successes := 0, failures := 0, halfOpenTrials := 0 }
  content := { successes := 0, failures := 0, halfOpenTrials := 0 }

/-- The listeners registered with `userBreaker.on(name, ...)`: what an event
named `name`, emitted by the user breaker, does to `breakerMetrics`. -/
def userBreakerOn (name : String) (m : BreakerMetrics) : BreakerMetrics :=
  if name = "success" then
    { m with user := { m.user with successes := m.user.successes + 1 } }
  else if name = "failure" then
    { m with user := { m.user with failures := m.user.failures + 1 } }
  else if name = "halfOpen" then
    { m with user := { m.user with halfOpenTrials := 0 } }
  else m

/-- The listeners registered with `contentBreaker.on(name, ...)`. -/
def contentBreakerOn (name : String) (m : BreakerMetrics) : BreakerMetrics :=
  if name = "success" then
    { m with content := { m.content with successes := m.content.successes + 1 } }
  else if name = "failure" then
    { m with content := { m.content with failures := m.content.failures + 1 } }
  else if name = "halfOpen" then
    { m with content := { m.content with halfOpenTrials := 0 } }
  else m

/-- The body of `calculateFailureRate`.  The expression
`((failures / total) * 100).toFixed(1)` is double-precision arithmetic followed
by decimal formatting; it is the parameter `percent`, applied to `failures` and
`total`. -/
def calculateFailureRate (percent : Nat → Nat → String) (successes failures : Nat) :
    String :=
  let total := successes + failures
  if total = 0 then "0%" else percent failures total ++ "%"

/-! ## Default preferences (lines 111-116) -/

/-- The function `defaultPreferences`. -/
def defaultPreferences (userId : String) : UserPreferences where
  userId := userId
  preferences := ["Comedy", "Family"]

/-! ## The environment of one request -/

/-- What one `breaker.fire(...)` does: the events the breaker emits while the
call is in flight, in order, and how the returned promise settles. -/
structure FireResult (α : Type) where
  emitted : List String
  settled : Except CallError α

/-- Everything outside the handler that one run of
`GET /recommendations/:userId` can observe. -/
structure Env (τ : Type) where
  /-- The value read from `userBreaker.opened` at line 162. -/
  userOpened : Bool
  /-- The behaviour of `userBreaker.fire(userId)`. -/
  userFire : String → FireResult UserPreferences
  /-- The value read from `contentBreaker.opened` at line 176. -/
  contentOpened : Bool
  /-- The behaviour of `contentBreaker.fire()`. -/
  contentFire : FireResult (List Movie)
  /-- How `fetchTrending()` settles. -/
  fetchTrending : Except CallError τ

/-! ## Responses -/

/-- The two JSON bodies the recommendations handler writes. -/
inductive Body (τ : Type) where
  | degraded (message : String) (trending : τ) (fallback_triggered_for : String)
  | normal (userPreferences : UserPreferences) (recommendations : List Movie)
      (fallback_triggered_for : Option String)
deriving DecidableEq, Repr

/-- How a handler run ends: it writes a JSON response with a status, or an
awaited call rejects outside any `try` and the rejection leaves the handler. -/
inductive Outcome (β : Type) where
  | json (status : Nat) (body : β)
  | thrown (e : CallError)
deriving DecidableEq, Repr

/-- The result of one handler run: how it ended, `breakerMetrics` afterwards,
and the remote operations it started, in order. -/
structure Handled (β : Type) where
  outcome : Outcome β
  metrics : BreakerMetrics
  calls : List String
deriving DecidableEq, Repr

/-- The handler's local variables after a dependency block. -/
structure Locals (α : Type) where
  fallbackServices : List String
  value : α
  metrics : BreakerMetrics
  calls : List String

/-! ## GET /recommendations/:userId (lines 153-212) -/

/-- The text of the degraded envelope. -/
def degradedMessage : String :=
  "Our recommendation service is temporarily degraded. Here are some trending movies."

/-- The block `USER PROFILE` (lines 162-172), started with
`fallbackServices = []`. -/
def userProfileBlock {τ : Type} (env : Env τ) (userId : String) (metrics : BreakerMetrics) :
    Locals UserPreferences :=
  if env.userOpened then
    { fallbackServices := ["user-profile-service"]
      value := defaultPreferences userId
      metrics := metrics
      calls := [] }
  else
    let fired := env.userFire userId
    let metrics := fired.emitted.foldl (fun m name => userBreakerOn name m) metrics
    match fired.settled with
    | .ok profile =>
      { fallbackServices := []
        value := profile
        metrics := metrics
        calls := ["userBreaker.fire"] }
    | .error _ =>
      { fallbackServices := ["user-profile-service"]
        value := defaultPreferences userId
        metrics := metrics
        calls := ["userBreaker.fire"] }

/-- The block `CONTENT` (lines 176-186), continuing from the locals left by the
user block. -/
def contentBlock {τ : Type} (env : Env τ) (fallbackServices : List String)
    (metrics : BreakerMetrics) (calls : List String) : Locals (List Movie) :=
  if env.contentOpened then
    { fallbackServices := fallbackServices ++ ["content-service"]
      value := []
      metrics := metrics
      calls := calls }
  else
    let fired := env.contentFire
    let metrics := fired.emitted.foldl (fun m name => contentBreakerOn name m) metrics
    match fired.settled with
    | .ok movies =>
      { fallbackServices := fallbackServices
        value := movies
        metrics := metrics
        calls := calls ++ ["contentBreaker.fire"] }
    | .error _ =>
      { fallbackServices := fallbackServices ++ ["content-service"]
        value := []
        metrics := metrics
        calls := calls ++ ["contentBreaker.fire"] }

/-- The expression `movies.filter(movie => userPreferences.preferences.includes(movie.genre))`. -/
def filterMovies (userPreferences : UserPreferences) (movies : List Movie) : List Movie :=
  movies.filter (fun movie => userPreferences.preferences.contains movie.genre)

/-- The handler of `GET /recommendations/:userId`. -/
def recommendations {τ : Type} (env : Env τ) (userId : String) (metrics : BreakerMetrics) :
    Handled (Body τ) :=
  let u := userProfileBlock env userId metrics
  let userPreferences := u.value
  let c := contentBlock env u.fallbackServices u.metrics u.calls
  let movies := c.value
  let fallbackServices := c.fallbackServices
  if fallbackServices.length = 2 then
    match env.fetchTrending with
    | .ok trending =>
      { outcome := .json 200
          (.degraded degradedMessage trending (", ".intercalate fallbackServices))
        metrics := c.metrics
        calls := c.calls ++ ["fetchTrending"] }
    | .error e =>
      { outcome := .thrown e
        metrics := c.metrics
        calls := c.calls ++ ["fetchTrending"] }
  else
    let filteredMovies := filterMovies userPreferences movies
    { outcome := .json 200
        (.normal userPreferences filteredMovies
          (if fallbackServices.length > 0 then some (", ".intercalate fallbackServices)
           else none))
      metrics := c.metrics
      calls := c.calls }

/-! ## POST /simulate/:service/:behavior (lines 130-147) -/

/-- The environment of the simulation handler: the two upstream base URLs and
how `axios.post(target)` settles for a given target. -/
structure SimulateEnv where
  USER_PROFILE_URL : String
  CONTENT_URL : String
  post : String → Except CallError Unit

/-- The JSON bodies the simulation handler writes. -/
inductive SimulateBody where
  | error (error : String)
  | message (message : String)
deriving DecidableEq, Repr

/-- The result of one run of the simulation handler: how it ended and the
targets it posted to, in order. -/
structure Simulated where
  outcome : Outcome SimulateBody
  posts : List String
deriving DecidableEq, Repr

/-- The handler of `POST /simulate/:service/:behavior`. -/
def simulate (env : SimulateEnv) (service behavior : String) : Simulated :=
  if !(["user-profile", "content"].contains service) then
    { outcome := .json 400 (.error "Invalid service"), posts := [] }
  else if !(["normal", "slow", "fail"].contains behavior) then
    { outcome := .json 400 (.error "Invalid behavior"), posts := [] }
  else
    let target :=
      if service = "user-profile" then
        env.USER_PROFILE_URL ++ "/internal/simulate/" ++ behavior
      else
        env.CONTENT_URL ++ "/internal/simulate/" ++ behavior
    match env.post target with
    | .error e => { outcome := .thrown e, posts := [target] }
    | .ok _ =>
      { outcome := .json 200 (.message (service ++ " set to " ++ behavior))
        posts := [target] }

/-! ## GET /health and GET /metrics/circuit-breakers (lines 122-124, 218-247) -/

/-- The body of the health response. -/
structure HealthBody where
  status : String
deriving DecidableEq, Repr

/-- The handler of `GET /health`. -/
def health : Outcome HealthBody :=
  .json 200 { status := "UP" }

/-- One breaker's entry of the metrics response. -/
structure BreakerReport where
  state : String
  failureRate : String
  successfulCalls : Nat
  failedCalls : Nat
deriving DecidableEq, Repr

/-- The body of the metrics response. -/
structure MetricsBody where
  userProfileCircuitBreaker : BreakerReport
  contentCircuitBreaker : BreakerReport
deriving DecidableEq, Repr

/-- The expression `breaker.opened ? "OPEN" : breaker.halfOpen ? "HALF_OPEN" : "CLOSED"`. -/
def stateLabel (opened halfOpen : Bool) : String :=
  if opened then "OPEN" else if halfOpen then "HALF_OPEN" else "CLOSED"

/-- The handler of `GET /metrics/circuit-breakers`, on the values it reads from
the two breakers and from `breakerMetrics`. -/
def metricsCircuitBreakers (percent : Nat → Nat → String)
    (userOpened userHalfOpen contentOpened contentHalfOpen : Bool)
    (breakerMetrics : BreakerMetrics) : Outcome MetricsBody :=
  .json 200
    { userProfileCircuitBreaker :=
        { state := stateLabel userOpened userHalfOpen
          failureRate :=
            calculateFailureRate percent breakerMetrics.user.successes
              breakerMetrics.user.failures
          successfulCalls := breakerMetrics.user.successes
          failedCalls := breakerMetrics.user.failures }
      contentCircuitBreaker :=
        { state := stateLabel contentOpened contentHalfOpen
          failureRate :=
            calculateFailureRate percent breakerMetrics.content.successes
              breakerMetrics.content.failures
          successfulCalls := breakerMetrics.content.successes
          failedCalls := breakerMetrics.content.failures } }

/-! ## The circuit breaker

`userBreaker` and `contentBreaker` are objects of a library class
(`new CircuitBreaker(fn, breakerOptions)`); the class itself is not among the
sources of the gateway.  The definitions of this section follow the words of
section 4.1 of the specification (with the data model of section 3 and the
bucket layout of section 9). -/

/-- Modelled from the spec: the three states of a breaker (the state machine of
the library class `CircuitBreaker`, whose code is absent). -/
inductive BreakerState where
  | CLOSED
  | OPEN
  | HALF_OPEN
deriving DecidableEq, Repr

/-- Modelled from the spec: the outcome of the remote operation `fn` wrapped by
a breaker call (the library's call path is absent): `SUCCESS` with the result,
`FAILURE` with the underlying error, or `TIMEOUT`. -/
inductive CallOutcome (α : Type) where
  | SUCCESS (value : α)
  | FAILURE (e : CallError)
  | TIMEOUT
deriving DecidableEq, Repr

/-- Modelled from the spec: one bucket of the rolling window (the library's
rolling statistics are absent): the time slot it currently holds, and the
outcomes recorded in that slot. -/
structure Bucket where
  slot : Nat
  successes : Nat
  failures : Nat
deriving DecidableEq, Repr

/-- Modelled from the spec: the record `CircuitBreaker` of section 3 (the
library class is absent): identity, configured thresholds, the minimum sample
floor (its value is not fixed by `breakerOptions`), state, rolling window and
trip time. -/
structure CircuitBreaker where
  name : String
  options : BreakerOptions
  minimumSamples : Nat
  state : BreakerState
  window : List Bucket
  trippedAt : Nat
deriving DecidableEq, Repr

/-- A change of state: the state left and the state entered. -/
abbrev Transition := BreakerState × BreakerState

/-- The four edges the specification allows. -/
def allowedTransitions : List Transition :=
  [ (.CLOSED, .OPEN), (.OPEN, .HALF_OPEN), (.HALF_OPEN, .CLOSED), (.HALF_OPEN, .OPEN) ]

/-- Modelled from the spec: a window of `n` empty buckets (the library's
constructor is absent). -/
def emptyWindow (n : Nat) : List Bucket :=
  List.replicate n { slot := 0, successes := 0, failures := 0 }

/-- Modelled from the spec: a new breaker, closed, with an empty window (the
library's constructor is absent). -/
def CircuitBreaker.create (name : String) (options : BreakerOptions) (minimumSamples : Nat) :
    CircuitBreaker where
  name := name
  options := options
  minimumSamples := minimumSamples
  state := .CLOSED
  window := emptyWindow options.rollingCountBuckets
  trippedAt := 0

/-- Modelled from the spec: the time slot of `now`, `now / bucketSpan`, the span
of a bucket being the recency span divided by the bucket count (the library's
rolling statistics are absent). -/
def CircuitBreaker.slotOf (b : CircuitBreaker) (now : Nat) : Nat :=
  now / (b.options.rollingCountTimeout / b.options.rollingCountBuckets)

/-- Modelled from the spec: appending one recorded outcome to the rolling window
(the library's rolling statistics are absent).  The bucket at index
`(now / bucketSpan) mod bucketCount` is cleared if it still holds an older slot,
then counts the outcome. -/
def CircuitBreaker.record (b : CircuitBreaker) (now : Nat) (failed : Bool) : List Bucket :=
  let slot := b.slotOf now
  let index := slot % b.options.rollingCountBuckets
  b.window.enum.map fun entry =>
    if entry.1 = index then
      let fresh : Bucket :=
        if entry.2.slot = slot then entry.2 else { slot := slot, successes := 0, failures := 0 }
      if failed then { fresh with failures := fresh.failures + 1 }
      else { fresh with successes := fresh.successes + 1 }
    else entry.2

/-- Modelled from the spec: the buckets of a window that lie within the recency
span at `now` (the library's rolling statistics are absent). -/
def CircuitBreaker.recent (b : CircuitBreaker) (now : Nat) (window : List Bucket) :
    List Bucket :=
  window.filter fun bucket =>
    decide (bucket.slot ≤ b.slotOf now) &&
      decide (b.slotOf now < bucket.slot + b.options.rollingCountBuckets)

/-- Modelled from the spec: the trip condition of a closed breaker (the
library's threshold check is absent): the outcomes in the window number at least
the minimum sample floor and the failure rate is at least the configured
percentage. -/
def CircuitBreaker.shouldTrip (b : CircuitBreaker) (now : Nat) (window : List Bucket) : Bool :=
  let successes := ((b.recent now window).map Bucket.successes).sum
  let failures := ((b.recent now window).map Bucket.failures).sum
  let total := successes + failures
  decide (b.minimumSamples ≤ total) &&
    decide (b.options.errorThresholdPercentage * total ≤ failures * 100)

/-- What one breaker call did: the breaker afterwards, the state changes in
order, whether `fn` was invoked, the events emitted in order, and how the call
settles for the caller. -/
structure Called (α : Type) where
  breaker : CircuitBreaker
  transitions : List Transition
  invoked : Bool
  emitted : List String
  settled : Except CallError α

/-- Modelled from the spec: time elapsing on a breaker (the library's reset
timer is absent).  An open breaker whose open-duration has passed since it
tripped becomes half-open; nothing else changes. -/
def CircuitBreaker.elapse (b : CircuitBreaker) (now : Nat) :
    CircuitBreaker × List Transition :=
  if b.state = .OPEN ∧ b.options.resetTimeout ≤ now - b.trippedAt then
    ({ b with state := .HALF_OPEN }, [(.OPEN, .HALF_OPEN)])
  else (b, [])

/-- Modelled from the spec: the contract `call(fn)` of section 4.1 (the
library's `fire` is absent), at time `now`, `fn` being the outcome the remote
operation has if it is invoked.  Recorded outcomes are emitted as `success` and
`failure`, the state changes as `halfOpen`, `open` and `close`. -/
def CircuitBreaker.call {α : Type} (b : CircuitBreaker) (now : Nat) (fn : CallOutcome α) :
    Called α :=
  if b.state = .OPEN ∧ now - b.trippedAt < b.options.resetTimeout then
    { breaker := b
      transitions := []
      invoked := false
      emitted := []
      settled := .error .fastFailRejection }
  else
    let trial : Bool := decide (b.state = .OPEN ∨ b.state = .HALF_OPEN)
    let entered : List Transition := if b.state = .OPEN then [(.OPEN, .HALF_OPEN)] else []
    let enteredEvents : List String := if b.state = .OPEN then ["halfOpen"] else []
    let failed : Bool :=
      match fn with
      | .SUCCESS _ => false
      | .FAILURE _ => true
      | .TIMEOUT => true
    let settled : Except CallError α :=
      match fn with
      | .SUCCESS value => .ok value
      | .FAILURE e => .error e
      | .TIMEOUT => .error .callTimeout
    let outcomeEvent : String := if failed then "failure" else "success"
    let window := b.record now failed
    if trial then
      if failed then
        { breaker := { b with state := .OPEN, window := window, trippedAt := now }
          transitions := entered ++ [(.HALF_OPEN, .OPEN)]
          invoked := true
          emitted := enteredEvents ++ [outcomeEvent, "open"]
          settled := settled }
      else
        { breaker :=
            { b with state := .CLOSED, window := emptyWindow b.options.rollingCountBuckets }
          transitions := entered ++ [(.HALF_OPEN, .CLOSED)]
          invoked := true
          emitted := enteredEvents ++ [outcomeEvent, "close"]
          settled := settled }
    else if b.shouldTrip now window then
      { breaker := { b with state := .OPEN, window := window, trippedAt := now }
        transitions := [(.CLOSED, .OPEN)]
        invoked := true
        emitted := [outcomeEvent, "open"]
        settled := settled }
    else
      { breaker := { b with window := window }
        transitions := []
        invoked := true
        emitted := [outcomeEvent]
        settled := settled }

/-! ## The gateway as a state machine

The state the process holds, the two breakers and `breakerMetrics`, and the
operations that reach it: the four endpoints, and time passing. -/

/-- The state of the running gateway. -/
structure Gateway where
  userBreaker : CircuitBreaker
  contentBreaker : CircuitBreaker
  breakerMetrics : BreakerMetrics
deriving DecidableEq, Repr

/-- The gateway at start-up: two breakers built from `breakerOptions`, all
counters zero. -/
def Gateway.start (minimumSamples : Nat) : Gateway where
  userBreaker := CircuitBreaker.create "user-profile-service" breakerOptions minimumSamples
  contentBreaker := CircuitBreaker.create "content-service" breakerOptions minimumSamples
  breakerMetrics := BreakerMetrics.initial

/-- One thing that happens to the gateway: a request to one of its endpoints,
with what the upstreams would answer and the times at which the breakers are
fired, or time passing up to `now`. -/
inductive Operation (τ : Type) where
  | health
  | recommendations (userId : String) (userAt : Nat) (profile : CallOutcome UserPreferences)
      (contentAt : Nat) (movies : CallOutcome (List Movie)) (trending : Except CallError τ)
  | metrics
  | simulate (service behavior : String) (post : String → Except CallError Unit)
  | elapse (now : Nat)

/-- The environment the recommendations handler runs in when the breakers are
those of the gateway `g`: `opened` reads whether the state is `OPEN`, `fire` is
the breaker's `call`. -/
def Gateway.env {τ : Type} (g : Gateway) (userAt : Nat) (profile : CallOutcome UserPreferences)
    (contentAt : Nat) (movies : CallOutcome (List Movie)) (trending : Except CallError τ) :
    Env τ where
  userOpened := decide (g.userBreaker.state = .OPEN)
  userFire := fun _ =>
    { emitted := (g.userBreaker.call userAt profile).emitted
      settled := (g.userBreaker.call userAt profile).settled }
  contentOpened := decide (g.contentBreaker.state = .OPEN)
  contentFire :=
    { emitted := (g.contentBreaker.call contentAt movies).emitted
      settled := (g.contentBreaker.call contentAt movies).settled }
  fetchTrending := trending

/-- The gateway after an operation, with the state changes each breaker went
through during it. -/
structure Stepped where
  gateway : Gateway
  userTransitions : List Transition
  contentTransitions : List Transition
deriving DecidableEq, Repr

/-- One operation on the gateway.  A handler reaches a breaker only by reading
it and by firing it: a breaker the recommendations handler fired is replaced by
the result of its `call`, every other breaker is left as it was. -/
def Gateway.step {τ : Type} (g : Gateway) : Operation τ → Stepped
  | .health => { gateway := g, userTransitions := [], contentTransitions := [] }
  | .metrics => { gateway := g, userTransitions := [], contentTransitions := [] }
  | .simulate _ _ _ => { gateway := g, userTransitions := [], contentTransitions := [] }
  | .elapse now =>
    { gateway :=
        { g with
          userBreaker := (g.userBreaker.elapse now).1
          contentBreaker := (g.contentBreaker.elapse now).1 }
      userTransitions := (g.userBreaker.elapse now).2
      contentTransitions := (g.contentBreaker.elapse now).2 }
  | .recommendations userId userAt profile contentAt movies trending =>
    let handled :=
      recommendations (g.env userAt profile contentAt movies trending) userId g.breakerMetrics
    let userFired := handled.calls.contains "userBreaker.fire"
    let contentFired := handled.calls.contains "contentBreaker.fire"
    { gateway :=
        { userBreaker :=
            if userFired then (g.userBreaker.call userAt profile).breaker else g.userBreaker
          contentBreaker :=
            if contentFired then (g.contentBreaker.call contentAt movies).breaker
            else g.contentBreaker
          breakerMetrics := handled.metrics }
      userTransitions :=
        if userFired then (g.userBreaker.call userAt profile).transitions else []
      contentTransitions :=
        if contentFired then (g.contentBreaker.call contentAt movies).transitions else [] }

/-- A sequence of operations, run from `g`: the final gateway and, per breaker,
all state changes in order. -/
def Gateway.run {τ : Type} (g : Gateway) : List (Operation τ) → Stepped
  | [] => { gateway := g, userTransitions := [], contentTransitions := [] }
  | op :: rest =>
    let first := g.step op
    let others := Gateway.run first.gateway rest
    { gateway := others.gateway
      userTransitions := first.userTransitions ++ others.userTransitions
      contentTransitions := first.contentTransitions ++ others.contentTransitions }

/-- The list `transitions` leads from state `s` to state `t` along allowed edges
only: each change starts where the previous one ended and is one of
`allowedTransitions`. -/
def TransitionPath : BreakerState → List Transition → BreakerState → Prop
  | s, [], t => s = t
  | s, change :: rest, t =>
    change.1 = s ∧ change ∈ allowedTransitions ∧ TransitionPath change.2 rest t

/-! ## What the caller receives -/

/-- The payload of a reply: the body a handler wrote, or a generic error
payload. -/
inductive Payload (β : Type) where
  | written (body : β)
  | genericError
deriving DecidableEq, Repr

/-- What reaches the caller of an endpoint: a status and a payload. -/
structure Reply (β : Type) where
  status : Nat
  payload : Payload β
deriving DecidableEq, Repr

/-- Modelled from the spec: what the caller receives for a handler run (the
error path of the web framework, `express`, is absent from the sources, and the
handlers register no error handler of their own).  A response the handler wrote
reaches the caller as written; a rejection that leaves the handler is surfaced
as a 5xx, status 500, with a generic error payload (section 7). -/
def surface {β : Type} : Outcome β → Reply β
  | .json status body => { status := status, payload := .written body }
  | .thrown _ => { status := 500, payload := .genericError }

/-! ## Reading a response -/

/-- The field `fallback_triggered_for` of a body (`none` for JSON `null`). -/
def Body.fallbackTriggeredFor {τ : Type} : Body τ → Option String
  | .degraded _ _ fallback => some fallback
  | .normal _ _ fallback => fallback

/-- The field `userPreferences` of a body, when the body has one. -/
def Body.userPreferences? {τ : Type} : Body τ → Option UserPreferences
  | .degraded _ _ _ => none
  | .normal userPreferences _ _ => some userPreferences

/-- The field `recommendations` of a body, when the body has one. -/
def Body.recommendations? {τ : Type} : Body τ → Option (List Movie)
  | .degraded _ _ _ => none
  | .normal _ recommendations _ => some recommendations

/-- The user-profile dependency fell back: its breaker read open, or the fired
call rejected (fast-fail, timeout or error alike). -/
def userFellBack {τ : Type} (env : Env τ) (userId : String) : Bool :=
  env.userOpened ||
    match (env.userFire userId).settled with
    | .ok _ => false
    | .error _ => true

/-- The content dependency fell back: its breaker read open, or the fired call
rejected. -/
def contentFellBack {τ : Type} (env : Env τ) : Bool :=
  env.contentOpened ||
    match env.contentFire.settled with
    | .ok _ => false
    | .error _ => true

/-- The annotation that names exactly the dependencies that fell back. -/
def fallbackLabel (user content : Bool) : Option String :=
  match user, content with
  | true, true => some "user-profile-service, content-service"
  | true, false => some "user-profile-service"
  | false, true => some "content-service"
  | false, false => none

/-! ## Sample data

The payloads the three upstream services of the repository answer with. -/

/-- One element of the trending payload. -/
structure TrendingMovie where
  movieId : Nat
  title : String
deriving DecidableEq, Repr

/-- The array served by `GET /movies` of the content service. -/
def contentCatalog : List Movie :=
  [ { movieId := 101, title := "Inception", genre := "Sci-Fi" },
    { movieId := 102, title := "The Dark Knight", genre := "Action" },
    { movieId := 103, title := "Interstellar", genre := "Sci-Fi" } ]

/-- The array served by `GET /trending` of the trending service. -/
def trendingCatalog : List TrendingMovie :=
  [ { movieId := 99, title := "Trending Movie 1" },
    { movieId := 100, title := "Trending Movie 2" } ]

/-- An environment in which both breakers are closed and every upstream
answers: the profile is `{ userId, preferences: ["Sci-Fi"] }`. -/
def healthyEnv : Env (List TrendingMovie) where
  userOpened := false
  userFire := fun userId =>
    { emitted := ["fire", "success"]
      settled := .ok { userId := userId, preferences := ["Sci-Fi"] } }
  contentOpened := false
  contentFire := { emitted := ["fire", "success"], settled := .ok contentCatalog }
  fetchTrending := .ok trendingCatalog

/-- Both breakers report open; the trending service answers. -/
def bothOpenEnv : Env (List TrendingMovie) :=
  { healthyEnv with userOpened := true, contentOpened := true }

/-- Only the user-profile breaker reports open. -/
def userOpenEnv : Env (List TrendingMovie) :=
  { healthyEnv with userOpened := true }

/-- Only the content breaker reports open. -/
def contentOpenEnv : Env (List TrendingMovie) :=
  { healthyEnv with contentOpened := true }

/-- Both breakers report open and the trending service is down. -/
def allDownEnv : Env (List TrendingMovie) :=
  { bothOpenEnv with fetchTrending := .error (.callError "ECONNREFUSED") }

/-- A run of the gateway from start-up in which the user-profile breaker goes
round the whole cycle: a failed call trips it, requests while it is open leave
it alone, the open-duration passes, and a successful trial call closes it. -/
def recoveryRun : List (Operation (List TrendingMovie)) :=
  [ .recommendations "1" 0 (.FAILURE (.callError "500")) 10 (.SUCCESS contentCatalog)
      (.ok trendingCatalog),
    .recommendations "1" 100 (.SUCCESS { userId := "1", preferences := ["Sci-Fi"] }) 110
      (.SUCCESS contentCatalog) (.ok trendingCatalog),
    .metrics,
    .elapse 30000,
    .recommendations "1" 30100 (.SUCCESS { userId := "1", preferences := ["Sci-Fi"] }) 30110
      .TIMEOUT (.ok trendingCatalog) ]

/-- A catalogue with a family film, an action film and a comedy. -/
def familyCatalog : List Movie :=
  [ { movieId := 201, title := "Paddington", genre := "Family" },
    { movieId := 202, title := "Heat", genre := "Action" },
    { movieId := 203, title := "Airplane", genre := "Comedy" } ]

/-- Both breakers are closed; the profile call is fired and fails with a 500,
the content call answers with `familyCatalog`. -/
def profileDownEnv : Env (List TrendingMovie) where
  userOpened := false
  userFire := fun _ =>
    { emitted := ["fire", "failure"], settled := .error (.callError "500") }
  contentOpened := false
  contentFire := { emitted := ["fire", "success"], settled := .ok familyCatalog }
  fetchTrending := .ok trendingCatalog

/-- Both upstreams of the simulation handler accept every command. -/
def acceptingSimulateEnv : SimulateEnv where
  USER_PROFILE_URL := "http://localhost:8081"
  CONTENT_URL := "http://localhost:8082"
  post := fun _ => .ok ()

/-- The upstreams of the simulation handler refuse the connection. -/
def refusingSimulateEnv : SimulateEnv where
  USER_PROFILE_URL := "http://localhost:8081"
  CONTENT_URL := "http://localhost:8082"
  post := fun _ => .error (.callError "ECONNREFUSED")

/-! ## Lemmas on the two dependency blocks -/

/-- The guard of `calculateFailureRate`: with no call recorded the result is the
literal `0%`; otherwise it is the formatted percentage followed by `%`. -/
theorem calculateFailureRate_guard (percent : Nat → Nat → String) (successes failures : Nat) :
    (successes + failures = 0 → calculateFailureRate percent successes failures = "0%") ∧
      (successes + failures ≠ 0 →
        calculateFailureRate percent successes failures =
          percent failures (successes + failures) ++ "%") := by
  unfold calculateFailureRate
  constructor <;> intro h <;> simp [h]

theorem userBreakerOn_content (name : String) (m : BreakerMetrics) :
    (userBreakerOn name m).content = m.content := by
  unfold userBreakerOn
  split_ifs <;> rfl

theorem contentBreakerOn_user (name : String) (m : BreakerMetrics) :
    (contentBreakerOn name m).user = m.user := by
  unfold contentBreakerOn
  split_ifs <;> rfl

theorem foldl_userBreakerOn_content (names : List String) (m : BreakerMetrics) :
    (names.foldl (fun m name => userBreakerOn name m) m).content = m.content := by
  induction names generalizing m with
  | nil => rfl
  | cons name rest ih => simp only [List.foldl_cons, ih, userBreakerOn_content]

theorem foldl_contentBreakerOn_user (names : List String) (m : BreakerMetrics) :
    (names.foldl (fun m name => contentBreakerOn name m) m).user = m.user := by
  induction names generalizing m with
  | nil => rfl
  | cons name rest ih => simp only [List.foldl_cons, ih, contentBreakerOn_user]

theorem foldl_contentBreakerOn_content (names : List String) (m n : BreakerMetrics)
    (h : m.content = n.content) :
    (names.foldl (fun m name => contentBreakerOn name m) m).content =
      (names.foldl (fun m name => contentBreakerOn name m) n).content := by
  induction names generalizing m n with
  | nil => exact h
  | cons name rest ih =>
    simp only [List.foldl_cons]
    apply ih
    unfold contentBreakerOn
    split_ifs <;> simp [h]

theorem userProfileBlock_fallbackServices {τ : Type} (env : Env τ) (userId : String)
    (metrics : BreakerMetrics) :
    (userProfileBlock env userId metrics).fallbackServices =
      if userFellBack env userId then ["user-profile-service"] else [] := by
  unfold userProfileBlock userFellBack
  cases env.userOpened <;> cases h : (env.userFire userId).settled <;> simp [h]

theorem userProfileBlock_value {τ : Type} (env : Env τ) (userId : String)
    (metrics : BreakerMetrics) :
    (userProfileBlock env userId metrics).value =
      if env.userOpened then defaultPreferences userId
      else match (env.userFire userId).settled with
        | .ok profile => profile
        | .error _ => defaultPreferences userId := by
  unfold userProfileBlock
  cases env.userOpened <;> cases h : (env.userFire userId).settled <;> simp [h]

theorem contentBlock_fallbackServices {τ : Type} (env : Env τ) (fallbackServices : List String)
    (metrics : BreakerMetrics) (calls : List String) :
    (contentBlock env fallbackServices metrics calls).fallbackServices =
      fallbackServices ++ (if contentFellBack env then ["content-service"] else []) := by
  unfold contentBlock contentFellBack
  cases env.contentOpened <;> cases h : env.contentFire.settled <;> simp [h]

theorem contentBlock_value {τ : Type} (env : Env τ) (fallbackServices : List String)
    (metrics : BreakerMetrics) (calls : List String) :
    (contentBlock env fallbackServices metrics calls).value =
      if env.contentOpened then []
      else match env.contentFire.settled with
        | .ok movies => movies
        | .error _ => [] := by
  unfold contentBlock
  cases env.contentOpened <;> cases h : env.contentFire.settled <;> simp [h]

/-- The handler's branch condition `fallbackServices.length === 2` holds exactly
when both dependencies fell back. -/
theorem fallbackServices_length_eq_two {τ : Type} (env : Env τ) (userId : String)
    (metrics : BreakerMetrics) :
    ((contentBlock env (userProfileBlock env userId metrics).fallbackServices
        (userProfileBlock env userId metrics).metrics
        (userProfileBlock env userId metrics).calls).fallbackServices.length = 2) ↔
      (userFellBack env userId = true ∧ contentFellBack env = true) := by
  rw [contentBlock_fallbackServices, userProfileBlock_fallbackServices]
  cases userFellBack env userId <;> cases contentFellBack env <;> simp

/-- The filter keeps exactly the movies whose genre is among the preferences. -/
theorem filterMovies_eq (userPreferences : UserPreferences) (movies : List Movie) :
    filterMovies userPreferences movies =
      movies.filter (fun movie => decide (movie.genre ∈ userPreferences.preferences)) := by
  unfold filterMovies
  congr 1
  funext movie
  simp

/-! ## The recommendations handler: theorems -/

/-- C1.  While both breakers read open and the trending fetch succeeds, the
handler answers 200 with the degraded envelope: the degradation message, the
value `fetchTrending` returned, and the annotation naming
`user-profile-service` and `content-service`.  The whole run (response, metrics,
calls started) is the same whatever `userBreaker.fire` and `contentBreaker.fire`
would have done. -/
theorem both_open_degraded_envelope {τ : Type} (env : Env τ) (userId : String)
    (metrics : BreakerMetrics) (trending : τ)
    (hUser : env.userOpened = true) (hContent : env.contentOpened = true)
    (hTrending : env.fetchTrending = .ok trending) :
    (recommendations env userId metrics).outcome =
        .json 200 (.degraded
          "Our recommendation service is temporarily degraded. Here are some trending movies."
          trending "user-profile-service, content-service") ∧
      ∀ (userFire : String → FireResult UserPreferences)
        (contentFire : FireResult (List Movie)),
        recommendations { env with userFire := userFire, contentFire := contentFire }
            userId metrics =
          recommendations env userId metrics := by
  constructor
  · simp [recommendations, userProfileBlock, contentBlock, hUser, hContent, hTrending,
      degradedMessage, String.intercalate, String.intercalate.go]
  · intro userFire contentFire
    simp [recommendations, userProfileBlock, contentBlock, hUser, hContent]

/-- C1 at a concrete request: both breakers read open and the trending service
answers with its catalogue. -/
theorem both_open_degraded_envelope_witness :
    (recommendations bothOpenEnv "1" BreakerMetrics.initial).outcome =
        .json 200 (.degraded
          "Our recommendation service is temporarily degraded. Here are some trending movies."
          trendingCatalog "user-profile-service, content-service") ∧
      ∀ (userFire : String → FireResult UserPreferences)
        (contentFire : FireResult (List Movie)),
        recommendations { bothOpenEnv with userFire := userFire, contentFire := contentFire }
            "1" BreakerMetrics.initial =
          recommendations bothOpenEnv "1" BreakerMetrics.initial :=
  both_open_degraded_envelope bothOpenEnv "1" BreakerMetrics.initial trendingCatalog rfl rfl rfl

/-- C2, as stated, fails.  With the user-profile breaker open, the content
breaker open as well and the trending service answering, the response is the
degraded envelope, which carries no preferences at all: no response body of
this run has `userPreferences` equal to the default. -/
theorem user_open_response_without_preferences :
    bothOpenEnv.userOpened = true ∧
      (recommendations bothOpenEnv "1" BreakerMetrics.initial).outcome =
        .json 200 (.degraded degradedMessage trendingCatalog
          "user-profile-service, content-service") ∧
      ¬ ∃ (status : Nat) (body : Body (List TrendingMovie)),
          (recommendations bothOpenEnv "1" BreakerMetrics.initial).outcome =
            .json status body ∧
          body.userPreferences? = some (defaultPreferences "1") := by
  refine ⟨rfl, by decide, ?_⟩
  rintro ⟨status, body, hOutcome, hPreferences⟩
  have hRun : (recommendations bothOpenEnv "1" BreakerMetrics.initial).outcome =
      .json 200 (.degraded degradedMessage trendingCatalog
        "user-profile-service, content-service") := by decide
  rw [hRun] at hOutcome
  injection hOutcome with _ hBody
  subst hBody
  simp [Body.userPreferences?] at hPreferences

/-- C2, amended.  While the user-profile breaker reads open, the preferences the
handler works with are `defaultPreferences userId`, whose genres are
`["Comedy", "Family"]`.  If the content dependency does not fall back (its
breaker is not open and its call succeeds with `movies`), the response is the
normal envelope with those default preferences and the annotation
`user-profile-service`.  If the content dependency falls back too and the
trending fetch succeeds, the response is the degraded envelope: it has no
preferences field and its annotation names both services. -/
theorem user_open_default_preferences {τ : Type} (env : Env τ) (userId : String)
    (metrics : BreakerMetrics) (hUser : env.userOpened = true) :
    (userProfileBlock env userId metrics).value = defaultPreferences userId ∧
      (defaultPreferences userId).preferences = ["Comedy", "Family"] ∧
      (∀ movies : List Movie, env.contentOpened = false →
        env.contentFire.settled = .ok movies →
        (recommendations env userId metrics).outcome =
          .json 200 (.normal (defaultPreferences userId)
            (movies.filter (fun movie => decide (movie.genre ∈ ["Comedy", "Family"])))
            (some "user-profile-service"))) ∧
      (∀ trending : τ, contentFellBack env = true → env.fetchTrending = .ok trending →
        (recommendations env userId metrics).outcome =
          .json 200 (.degraded degradedMessage trending
            "user-profile-service, content-service") ∧
        (Body.degraded degradedMessage trending
            "user-profile-service, content-service").userPreferences? = none) := by
  refine ⟨?_, rfl, ?_, ?_⟩
  · simp [userProfileBlock, hUser]
  · intro movies hContent hMovies
    have hFilter := filterMovies_eq (defaultPreferences userId) movies
    simp only [defaultPreferences] at hFilter
    simp [recommendations, userProfileBlock, contentBlock, hUser, hContent, hMovies,
      String.intercalate, String.intercalate.go, defaultPreferences, hFilter]
  · intro trending hContent hTrending
    refine ⟨?_, rfl⟩
    have hTwo := (fallbackServices_length_eq_two env userId metrics).mpr
      ⟨by simp [userFellBack, hUser], hContent⟩
    have hList : (contentBlock env (userProfileBlock env userId metrics).fallbackServices
        (userProfileBlock env userId metrics).metrics
        (userProfileBlock env userId metrics).calls).fallbackServices =
        ["user-profile-service", "content-service"] := by
      rw [contentBlock_fallbackServices, userProfileBlock_fallbackServices]
      simp [userFellBack, hUser, hContent]
    simp only [recommendations, hTwo, if_true, hTrending, hList]
    simp [String.intercalate, String.intercalate.go]

/-- C2, amended, at a concrete request: only the user-profile breaker reads
open. -/
theorem user_open_default_preferences_witness :
    (userProfileBlock userOpenEnv "1" BreakerMetrics.initial).value = defaultPreferences "1" ∧
      (defaultPreferences "1").preferences = ["Comedy", "Family"] ∧
      (∀ movies : List Movie, userOpenEnv.contentOpened = false →
        userOpenEnv.contentFire.settled = .ok movies →
        (recommendations userOpenEnv "1" BreakerMetrics.initial).outcome =
          .json 200 (.normal (defaultPreferences "1")
            (movies.filter (fun movie => decide (movie.genre ∈ ["Comedy", "Family"])))
            (some "user-profile-service"))) ∧
      (∀ trending : List TrendingMovie, contentFellBack userOpenEnv = true →
        userOpenEnv.fetchTrending = .ok trending →
        (recommendations userOpenEnv "1" BreakerMetrics.initial).outcome =
          .json 200 (.degraded degradedMessage trending
            "user-profile-service, content-service") ∧
        (Body.degraded degradedMessage trending
            "user-profile-service, content-service").userPreferences? = none) :=
  user_open_default_preferences userOpenEnv "1" BreakerMetrics.initial rfl

/-- C3.  When neither breaker reads open and both fired calls succeed, with
profile `profile` and movie list `movies`, the handler answers 200 with the
normal envelope: `userPreferences` is `profile`, `recommendations` are the
movies of `movies` whose genre is in `profile.preferences`, and no dependency is
listed as fallen back (the list is empty and the annotation is `null`). -/
theorem closed_success_normal_envelope {τ : Type} (env : Env τ) (userId : String)
    (metrics : BreakerMetrics) (profile : UserPreferences) (movies : List Movie)
    (hUser : env.userOpened = false) (hContent : env.contentOpened = false)
    (hProfile : (env.userFire userId).settled = .ok profile)
    (hMovies : env.contentFire.settled = .ok movies) :
    (recommendations env userId metrics).outcome =
        .json 200 (.normal profile
          (movies.filter (fun movie => decide (movie.genre ∈ profile.preferences))) none) ∧
      (contentBlock env (userProfileBlock env userId metrics).fallbackServices
        (userProfileBlock env userId metrics).metrics
        (userProfileBlock env userId metrics).calls).fallbackServices = [] := by
  have hFilter := filterMovies_eq profile movies
  constructor
  · simp [recommendations, userProfileBlock, contentBlock, hUser, hContent, hProfile,
      hMovies, hFilter]
  · simp [userProfileBlock, contentBlock, hUser, hContent, hProfile, hMovies]

/-- C3 at a concrete request: both breakers closed, profile `["Sci-Fi"]`, the
catalogue of the content service. -/
theorem closed_success_normal_envelope_witness :
    (recommendations healthyEnv "1" BreakerMetrics.initial).outcome =
        .json 200 (.normal { userId := "1", preferences := ["Sci-Fi"] }
          (contentCatalog.filter (fun movie => decide (movie.genre ∈ ["Sci-Fi"]))) none) ∧
      (contentBlock healthyEnv
        (userProfileBlock healthyEnv "1" BreakerMetrics.initial).fallbackServices
        (userProfileBlock healthyEnv "1" BreakerMetrics.initial).metrics
        (userProfileBlock healthyEnv "1" BreakerMetrics.initial).calls).fallbackServices = [] :=
  closed_success_normal_envelope healthyEnv "1" BreakerMetrics.initial
    { userId := "1", preferences := ["Sci-Fi"] } contentCatalog rfl rfl rfl rfl

/-- The scenario of the specification: preferences `["Sci-Fi"]` over the
catalogue of the content service recommend Inception and Interstellar, nothing
listed as fallen back. -/
theorem scenario_closed_breakers :
    (recommendations healthyEnv "1" BreakerMetrics.initial).outcome =
      .json 200 (.normal { userId := "1", preferences := ["Sci-Fi"] }
        [ { movieId := 101, title := "Inception", genre := "Sci-Fi" },
          { movieId := 103, title := "Interstellar", genre := "Sci-Fi" } ] none) := by
  decide

/-- C5.  While the content breaker reads open, the user-profile breaker does
not, and the profile call succeeds with `profile`: the movies are the empty
list, the response is the normal envelope with `userPreferences = profile` and
`recommendations = []`, and exactly `content-service` is listed as fallen
back. -/
theorem content_open_empty_recommendations {τ : Type} (env : Env τ) (userId : String)
    (metrics : BreakerMetrics) (profile : UserPreferences)
    (hUser : env.userOpened = false) (hContent : env.contentOpened = true)
    (hProfile : (env.userFire userId).settled = .ok profile) :
    (contentBlock env (userProfileBlock env userId metrics).fallbackServices
        (userProfileBlock env userId metrics).metrics
        (userProfileBlock env userId metrics).calls).value = [] ∧
      (contentBlock env (userProfileBlock env userId metrics).fallbackServices
        (userProfileBlock env userId metrics).metrics
        (userProfileBlock env userId metrics).calls).fallbackServices = ["content-service"] ∧
      (recommendations env userId metrics).outcome =
        .json 200 (.normal profile [] (some "content-service")) := by
  refine ⟨?_, ?_, ?_⟩
  · simp [contentBlock, hContent]
  · simp [userProfileBlock, contentBlock, hUser, hContent, hProfile]
  · simp [recommendations, userProfileBlock, contentBlock, hUser, hContent, hProfile,
      filterMovies, String.intercalate, String.intercalate.go]

/-- C5 at a concrete request: only the content breaker reads open. -/
theorem content_open_empty_recommendations_witness :
    (contentBlock contentOpenEnv
        (userProfileBlock contentOpenEnv "1" BreakerMetrics.initial).fallbackServices
        (userProfileBlock contentOpenEnv "1" BreakerMetrics.initial).metrics
        (userProfileBlock contentOpenEnv "1" BreakerMetrics.initial).calls).value = [] ∧
      (contentBlock contentOpenEnv
        (userProfileBlock contentOpenEnv "1" BreakerMetrics.initial).fallbackServices
        (userProfileBlock contentOpenEnv "1" BreakerMetrics.initial).metrics
        (userProfileBlock contentOpenEnv "1" BreakerMetrics.initial).calls).fallbackServices =
        ["content-service"] ∧
      (recommendations contentOpenEnv "1" BreakerMetrics.initial).outcome =
        .json 200 (.normal { userId := "1", preferences := ["Sci-Fi"] } []
          (some "content-service")) :=
  content_open_empty_recommendations contentOpenEnv "1" BreakerMetrics.initial
    { userId := "1", preferences := ["Sci-Fi"] } rfl rfl rfl

/-- The run of the handler when not both dependencies fell back. -/
theorem recommendations_outcome_normal {τ : Type} (env : Env τ) (userId : String)
    (metrics : BreakerMetrics)
    (hNot : ¬ (userFellBack env userId = true ∧ contentFellBack env = true)) :
    (recommendations env userId metrics).outcome =
      .json 200 (.normal
        (if userFellBack env userId then defaultPreferences userId
         else match (env.userFire userId).settled with
           | .ok profile => profile
           | .error _ => defaultPreferences userId)
        (filterMovies
          (if userFellBack env userId then defaultPreferences userId
           else match (env.userFire userId).settled with
             | .ok profile => profile
             | .error _ => defaultPreferences userId)
          (if contentFellBack env then []
           else match env.contentFire.settled with
             | .ok movies => movies
             | .error _ => []))
        (fallbackLabel (userFellBack env userId) (contentFellBack env))) := by
  have hLen := mt (fallbackServices_length_eq_two env userId metrics).mp hNot
  simp only [recommendations, hLen, if_false]
  rw [contentBlock_fallbackServices, userProfileBlock_fallbackServices, contentBlock_value,
    userProfileBlock_value]
  unfold userFellBack contentFellBack at *
  cases hu : env.userOpened <;> cases hc : env.contentOpened <;>
    cases hp : (env.userFire userId).settled <;> cases hm : env.contentFire.settled <;>
    simp_all [fallbackLabel, String.intercalate, String.intercalate.go]

/-- The run of the handler when both dependencies fell back. -/
theorem recommendations_outcome_degraded {τ : Type} (env : Env τ) (userId : String)
    (metrics : BreakerMetrics)
    (hBoth : userFellBack env userId = true ∧ contentFellBack env = true) :
    (recommendations env userId metrics).outcome =
      match env.fetchTrending with
      | .ok trending =>
        .json 200 (.degraded degradedMessage trending "user-profile-service, content-service")
      | .error e => .thrown e := by
  have hLen := (fallbackServices_length_eq_two env userId metrics).mpr hBoth
  simp only [recommendations, hLen, if_true]
  rw [contentBlock_fallbackServices, userProfileBlock_fallbackServices]
  cases hT : env.fetchTrending <;>
    simp [hBoth.1, hBoth.2, String.intercalate, String.intercalate.go]

/-- The outcome of a run, by whether both dependencies fell back. -/
theorem recommendations_outcome {τ : Type} (env : Env τ) (userId : String)
    (metrics : BreakerMetrics) :
    (recommendations env userId metrics).outcome =
      if userFellBack env userId = true ∧ contentFellBack env = true then
        match env.fetchTrending with
        | .ok trending =>
          .json 200 (.degraded degradedMessage trending "user-profile-service, content-service")
        | .error e => .thrown e
      else
        .json 200 (.normal
          (if userFellBack env userId then defaultPreferences userId
           else match (env.userFire userId).settled with
             | .ok profile => profile
             | .error _ => defaultPreferences userId)
          (filterMovies
            (if userFellBack env userId then defaultPreferences userId
             else match (env.userFire userId).settled with
               | .ok profile => profile
               | .error _ => defaultPreferences userId)
            (if contentFellBack env then []
             else match env.contentFire.settled with
               | .ok movies => movies
               | .error _ => []))
          (fallbackLabel (userFellBack env userId) (contentFellBack env))) := by
  by_cases hBoth : userFellBack env userId = true ∧ contentFellBack env = true
  · rw [if_pos hBoth]
    exact recommendations_outcome_degraded env userId metrics hBoth
  · rw [if_neg hBoth]
    exact recommendations_outcome_normal env userId metrics hBoth

/-- The remote operations a run starts: each breaker is fired unless it reads
open, and the trending fetch follows when both dependencies fell back. -/
theorem recommendations_calls {τ : Type} (env : Env τ) (userId : String)
    (metrics : BreakerMetrics) :
    (recommendations env userId metrics).calls =
      (if env.userOpened then [] else ["userBreaker.fire"]) ++
      (if env.contentOpened then [] else ["contentBreaker.fire"]) ++
      (if userFellBack env userId = true ∧ contentFellBack env = true then ["fetchTrending"]
       else []) := by
  have hTwo := fallbackServices_length_eq_two env userId metrics
  have hUserCalls : (userProfileBlock env userId metrics).calls =
      if env.userOpened then [] else ["userBreaker.fire"] := by
    unfold userProfileBlock
    cases env.userOpened <;> cases h : (env.userFire userId).settled <;> simp [h]
  have hContentCalls : ∀ (fs : List String) (m : BreakerMetrics) (calls : List String),
      (contentBlock env fs m calls).calls =
        calls ++ (if env.contentOpened then [] else ["contentBreaker.fire"]) := by
    intro fs m calls
    unfold contentBlock
    cases env.contentOpened <;> cases h : env.contentFire.settled <;> simp [h]
  by_cases hBoth : userFellBack env userId = true ∧ contentFellBack env = true
  · have hLen := hTwo.mpr hBoth
    rw [if_pos hBoth]
    simp only [recommendations, hLen, if_true]
    cases hT : env.fetchTrending <;> simp only [hContentCalls, hUserCalls]
  · have hLen := mt hTwo.mp hBoth
    rw [if_neg hBoth]
    simp only [recommendations, hLen, if_false]
    simp only [hContentCalls, hUserCalls, List.append_nil]

/-- The counters after a run: the events of each fired breaker went through the
listeners of that breaker, a breaker that read open contributed none. -/
theorem recommendations_metrics {τ : Type} (env : Env τ) (userId : String)
    (metrics : BreakerMetrics) :
    (recommendations env userId metrics).metrics =
      (if env.contentOpened then [] else env.contentFire.emitted).foldl
        (fun m name => contentBreakerOn name m)
        ((if env.userOpened then [] else (env.userFire userId).emitted).foldl
          (fun m name => userBreakerOn name m) metrics) := by
  have hUserMetrics : (userProfileBlock env userId metrics).metrics =
      (if env.userOpened then [] else (env.userFire userId).emitted).foldl
        (fun m name => userBreakerOn name m) metrics := by
    unfold userProfileBlock
    cases env.userOpened <;> cases h : (env.userFire userId).settled <;> simp [h]
  have hContentMetrics : ∀ (fs : List String) (m : BreakerMetrics) (calls : List String),
      (contentBlock env fs m calls).metrics =
        (if env.contentOpened then [] else env.contentFire.emitted).foldl
          (fun m name => contentBreakerOn name m) m := by
    intro fs m calls
    unfold contentBlock
    cases env.contentOpened <;> cases h : env.contentFire.settled <;> simp [h]
  have hRun : (recommendations env userId metrics).metrics =
      (contentBlock env (userProfileBlock env userId metrics).fallbackServices
        (userProfileBlock env userId metrics).metrics
        (userProfileBlock env userId metrics).calls).metrics := by
    simp only [recommendations]
    split_ifs <;> first | rfl | (cases hT : env.fetchTrending <;> rfl)
  rw [hRun, hContentMetrics, hUserMetrics]

/-- C4.  Let `P` be the preferences the handler holds (the default when the
user-profile dependency fell back, the live profile otherwise) and `M` the movie
list it holds (empty when the content dependency fell back, the live list
otherwise).  The handler returns a normal envelope exactly when not both
dependencies fell back, and then it answers 200 with `userPreferences = P` and
`recommendations` equal to the movies of `M` whose genre is a member of
`P.preferences`: a sublist of `M` in the order of `M`, containing a movie
exactly when it is in `M` with a matching genre; when no genre matches, the
response is still 200, with the empty list. -/
theorem normal_envelope_filters {τ : Type} (env : Env τ) (userId : String)
    (metrics : BreakerMetrics) (P : UserPreferences) (M : List Movie)
    (hP : (userFellBack env userId = true ∧ P = defaultPreferences userId) ∨
      (env.userOpened = false ∧ (env.userFire userId).settled = .ok P))
    (hM : (contentFellBack env = true ∧ M = []) ∨
      (env.contentOpened = false ∧ env.contentFire.settled = .ok M)) :
    ((∃ (status : Nat) (P' : UserPreferences) (recs : List Movie) (fallback : Option String),
        (recommendations env userId metrics).outcome =
          .json status (.normal P' recs fallback)) ↔
      ¬ (userFellBack env userId = true ∧ contentFellBack env = true)) ∧
    (¬ (userFellBack env userId = true ∧ contentFellBack env = true) →
      (recommendations env userId metrics).outcome =
        .json 200 (.normal P
          (M.filter (fun movie => decide (movie.genre ∈ P.preferences)))
          (fallbackLabel (userFellBack env userId) (contentFellBack env))) ∧
      (M.filter (fun movie => decide (movie.genre ∈ P.preferences))).Sublist M ∧
      (∀ movie : Movie,
        movie ∈ M.filter (fun movie => decide (movie.genre ∈ P.preferences)) ↔
          movie ∈ M ∧ movie.genre ∈ P.preferences) ∧
      ((∀ movie ∈ M, movie.genre ∉ P.preferences) →
        (recommendations env userId metrics).outcome =
          .json 200 (.normal P []
            (fallbackLabel (userFellBack env userId) (contentFellBack env))))) := by
  have hHeldP : (if userFellBack env userId then defaultPreferences userId
      else match (env.userFire userId).settled with
        | .ok profile => profile
        | .error _ => defaultPreferences userId) = P := by
    rcases hP with ⟨hFell, hEq⟩ | ⟨hOpened, hSettled⟩
    · rw [if_pos hFell, hEq]
    · have hFell : userFellBack env userId = false := by
        simp [userFellBack, hOpened, hSettled]
      simp [hFell, hSettled]
  have hHeldM : (if contentFellBack env then []
      else match env.contentFire.settled with
        | .ok movies => movies
        | .error _ => []) = M := by
    rcases hM with ⟨hFell, hEq⟩ | ⟨hOpened, hSettled⟩
    · rw [if_pos hFell, hEq]
    · have hFell : contentFellBack env = false := by
        simp [contentFellBack, hOpened, hSettled]
      simp [hFell, hSettled]
  have hNormal : ¬ (userFellBack env userId = true ∧ contentFellBack env = true) →
      (recommendations env userId metrics).outcome =
        .json 200 (.normal P
          (M.filter (fun movie => decide (movie.genre ∈ P.preferences)))
          (fallbackLabel (userFellBack env userId) (contentFellBack env))) := by
    intro hNot
    rw [recommendations_outcome_normal env userId metrics hNot, hHeldP, hHeldM,
      filterMovies_eq]
  refine ⟨⟨?_, ?_⟩, ?_⟩
  · rintro ⟨status, P', recs, fallback, hOutcome⟩ hBoth
    rw [recommendations_outcome_degraded env userId metrics hBoth] at hOutcome
    cases hT : env.fetchTrending <;> simp [hT] at hOutcome
  · intro hNot
    exact ⟨200, _, _, _, hNormal hNot⟩
  · intro hNot
    refine ⟨hNormal hNot, List.filter_sublist _, ?_, ?_⟩
    · intro movie
      simp [List.mem_filter]
    · intro hNone
      have hEmpty : M.filter (fun movie => decide (movie.genre ∈ P.preferences)) = [] := by
        rw [List.filter_eq_nil_iff]
        intro movie hMem
        simpa using hNone movie hMem
      rw [hNormal hNot, hEmpty]

/-- C4 at a concrete request: the profile call fails, so the preferences are the
default `["Comedy", "Family"]`; the live catalogue holds a family film, an
action film and a comedy, and the two matching films are recommended in the
order of the catalogue. -/
theorem normal_envelope_filters_witness :
    (recommendations profileDownEnv "7" BreakerMetrics.initial).outcome =
        .json 200 (.normal { userId := "7", preferences := ["Comedy", "Family"] }
          [ { movieId := 201, title := "Paddington", genre := "Family" },
            { movieId := 203, title := "Airplane", genre := "Comedy" } ]
          (some "user-profile-service")) ∧
      (recommendations profileDownEnv "7" BreakerMetrics.initial).outcome =
        .json 200 (.normal (defaultPreferences "7")
          (familyCatalog.filter
            (fun movie => decide (movie.genre ∈ (defaultPreferences "7").preferences)))
          (fallbackLabel (userFellBack profileDownEnv "7") (contentFellBack profileDownEnv))) :=
  ⟨by decide,
    ((normal_envelope_filters profileDownEnv "7" BreakerMetrics.initial
        (defaultPreferences "7") familyCatalog (Or.inl ⟨by decide, rfl⟩)
        (Or.inr ⟨rfl, rfl⟩)).2 (by decide)).1⟩

/-- How a run of the handler ends, by the dependencies that fell back and the
outcome of the trending fetch. -/
theorem recommendations_error_iff {τ : Type} (env : Env τ) (userId : String)
    (metrics : BreakerMetrics) :
    ((∃ e, (recommendations env userId metrics).outcome = .thrown e) ↔
      (userFellBack env userId = true ∧ contentFellBack env = true ∧
        ∃ e, env.fetchTrending = .error e)) ∧
    (∀ e, (recommendations env userId metrics).outcome = .thrown e →
      env.fetchTrending = .error e) ∧
    (¬ (userFellBack env userId = true ∧ contentFellBack env = true ∧
        ∃ e, env.fetchTrending = .error e) →
      ∃ body : Body τ,
        (recommendations env userId metrics).outcome = .json 200 body ∧
        body.fallbackTriggeredFor =
          fallbackLabel (userFellBack env userId) (contentFellBack env) ∧
        (userFellBack env userId = true → contentFellBack env = false →
          body.userPreferences? = some (defaultPreferences userId)) ∧
        (contentFellBack env = true → userFellBack env userId = false →
          body.recommendations? = some [])) := by
  by_cases hBoth : userFellBack env userId = true ∧ contentFellBack env = true
  · have hRun := recommendations_outcome_degraded env userId metrics hBoth
    cases hT : env.fetchTrending with
    | error err =>
      rw [hT] at hRun
      simp only at hRun
      refine ⟨⟨fun _ => ⟨hBoth.1, hBoth.2, err, rfl⟩, fun _ => ⟨err, hRun⟩⟩, ?_, ?_⟩
      · intro e he
        rw [hRun] at he
        injection he with he
        rw [he]
      · intro hNot
        exact absurd ⟨hBoth.1, hBoth.2, err, rfl⟩ hNot
    | ok trending =>
      rw [hT] at hRun
      simp only at hRun
      refine ⟨⟨?_, ?_⟩, ?_, ?_⟩
      · rintro ⟨e, he⟩
        rw [hRun] at he
        cases he
      · rintro ⟨_, _, e, he⟩
        cases he
      · intro e he
        rw [hRun] at he
        cases he
      · intro _
        refine ⟨_, hRun, ?_, ?_, ?_⟩
        · simp [Body.fallbackTriggeredFor, fallbackLabel, hBoth.1, hBoth.2]
        · intro _ hc
          simp [hBoth.2] at hc
        · intro _ hu
          simp [hBoth.1] at hu
  · have hRun := recommendations_outcome_normal env userId metrics hBoth
    refine ⟨⟨?_, ?_⟩, ?_, ?_⟩
    · rintro ⟨e, he⟩
      rw [hRun] at he
      cases he
    · rintro ⟨hu, hc, _⟩
      exact absurd ⟨hu, hc⟩ hBoth
    · intro e he
      rw [hRun] at he
      cases he
    · intro _
      refine ⟨_, hRun, rfl, ?_, ?_⟩
      · intro hu _
        simp [Body.userPreferences?, hu]
      · intro hc _
        simp [Body.recommendations?, hc, filterMovies]

/-- C6.  A request ends in an error exactly when both dependencies fell back
and the trending fetch fails: the rejection of the trending fetch then leaves
the handler (no further fallback, no response written by the handler) and the
caller receives a 5xx with a generic error payload.  In every other combination
of breaker readings and call outcomes the handler answers 200 and that response
reaches the caller; its annotation names exactly the dependencies that fell back
(`null` when none did), the preferences are the default whenever the
user-profile dependency fell back and the recommendations are empty whenever the
content dependency fell back. -/
theorem error_only_when_trending_fails {τ : Type} (env : Env τ) (userId : String)
    (metrics : BreakerMetrics) :
    ((∃ e, (recommendations env userId metrics).outcome = .thrown e) ↔
      (userFellBack env userId = true ∧ contentFellBack env = true ∧
        ∃ e, env.fetchTrending = .error e)) ∧
    (∀ e, (recommendations env userId metrics).outcome = .thrown e →
      env.fetchTrending = .error e) ∧
    ((500 ≤ (surface (recommendations env userId metrics).outcome).status ∧
        (surface (recommendations env userId metrics).outcome).status < 600) ↔
      (userFellBack env userId = true ∧ contentFellBack env = true ∧
        ∃ e, env.fetchTrending = .error e)) ∧
    ((userFellBack env userId = true ∧ contentFellBack env = true ∧
        ∃ e, env.fetchTrending = .error e) →
      surface (recommendations env userId metrics).outcome =
        { status := 500, payload := .genericError }) ∧
    (¬ (userFellBack env userId = true ∧ contentFellBack env = true ∧
        ∃ e, env.fetchTrending = .error e) →
      ∃ body : Body τ,
        (recommendations env userId metrics).outcome = .json 200 body ∧
        surface (recommendations env userId metrics).outcome =
          { status := 200, payload := .written body } ∧
        body.fallbackTriggeredFor =
          fallbackLabel (userFellBack env userId) (contentFellBack env) ∧
        (userFellBack env userId = true → contentFellBack env = false →
          body.userPreferences? = some (defaultPreferences userId)) ∧
        (contentFellBack env = true → userFellBack env userId = false →
          body.recommendations? = some [])) := by
  obtain ⟨hIff, hError, hOk⟩ := recommendations_error_iff env userId metrics
  have hFatal : (userFellBack env userId = true ∧ contentFellBack env = true ∧
        ∃ e, env.fetchTrending = .error e) →
      surface (recommendations env userId metrics).outcome =
        { status := 500, payload := .genericError } := by
    intro hCond
    obtain ⟨e, he⟩ := hIff.mpr hCond
    rw [he]
    rfl
  refine ⟨hIff, hError, ⟨?_, ?_⟩, hFatal, ?_⟩
  · intro hStatus
    by_contra hNot
    obtain ⟨body, hBody, _⟩ := hOk hNot
    rw [hBody] at hStatus
    simp [surface] at hStatus
  · intro hCond
    rw [hFatal hCond]
    constructor <;> simp
  · intro hNot
    obtain ⟨body, hBody, hLabel, hPrefs, hRecs⟩ := hOk hNot
    refine ⟨body, hBody, ?_, hLabel, hPrefs, hRecs⟩
    rw [hBody]
    rfl

/-- C6 at concrete requests: with both breakers open and the trending service
down the run ends with the error of the trending fetch and the caller receives
a 500 with the generic payload; with only the user breaker open the status is
not a 5xx. -/
theorem error_only_when_trending_fails_witness :
    (recommendations allDownEnv "1" BreakerMetrics.initial).outcome =
        .thrown (.callError "ECONNREFUSED") ∧
      surface (recommendations allDownEnv "1" BreakerMetrics.initial).outcome =
        { status := 500, payload := .genericError } ∧
      ((∃ e, (recommendations userOpenEnv "1" BreakerMetrics.initial).outcome = .thrown e) ↔
        (userFellBack userOpenEnv "1" = true ∧ contentFellBack userOpenEnv = true ∧
          ∃ e, userOpenEnv.fetchTrending = .error e)) :=
  ⟨by decide,
    (error_only_when_trending_fails allDownEnv "1" BreakerMetrics.initial).2.2.2.1
      ⟨by decide, by decide, _, rfl⟩,
    (error_only_when_trending_fails userOpenEnv "1" BreakerMetrics.initial).1⟩

/-- The call log, the counters and the response of a run, by whether each
breaker read open. -/
theorem open_breaker_run {τ : Type} (env : Env τ) (userId : String)
    (metrics : BreakerMetrics) :
    (env.userOpened = true →
      "userBreaker.fire" ∉ (recommendations env userId metrics).calls ∧
      (recommendations env userId metrics).metrics.user = metrics.user ∧
      ∀ (emitted : List String) (e : CallError),
        (recommendations
            { env with userOpened := false, userFire := fun _ => ⟨emitted, .error e⟩ }
            userId metrics).outcome =
          (recommendations env userId metrics).outcome) ∧
    (env.contentOpened = true →
      "contentBreaker.fire" ∉ (recommendations env userId metrics).calls ∧
      (recommendations env userId metrics).metrics.content = metrics.content ∧
      ∀ (emitted : List String) (e : CallError),
        (recommendations
            { env with contentOpened := false, contentFire := ⟨emitted, .error e⟩ }
            userId metrics).outcome =
          (recommendations env userId metrics).outcome) ∧
    (env.userOpened = false →
      (recommendations env userId metrics).calls.count "userBreaker.fire" = 1 ∧
      (recommendations env userId metrics).metrics.user =
        ((env.userFire userId).emitted.foldl (fun m name => userBreakerOn name m)
          metrics).user) ∧
    (env.contentOpened = false →
      (recommendations env userId metrics).calls.count "contentBreaker.fire" = 1 ∧
      (recommendations env userId metrics).metrics.content =
        (env.contentFire.emitted.foldl (fun m name => contentBreakerOn name m)
          metrics).content) := by
  have hCalls := recommendations_calls env userId metrics
  have hMetrics := recommendations_metrics env userId metrics
  refine ⟨?_, ?_, ?_, ?_⟩
  · intro hUser
    refine ⟨?_, ?_, ?_⟩
    · rw [hCalls]
      cases env.contentOpened <;> simp [hUser]
    · rw [hMetrics, hUser]
      cases env.contentOpened <;> simp [foldl_contentBreakerOn_user]
    · intro emitted e
      rw [recommendations_outcome, recommendations_outcome env]
      simp [userFellBack, contentFellBack, hUser]
  · intro hContent
    refine ⟨?_, ?_, ?_⟩
    · rw [hCalls]
      cases env.userOpened <;> simp [hContent]
    · rw [hMetrics, hContent]
      simp [foldl_userBreakerOn_content]
    · intro emitted e
      rw [recommendations_outcome, recommendations_outcome env]
      simp [userFellBack, contentFellBack, hContent]
  · intro hUser
    constructor
    · rw [hCalls]
      cases env.contentOpened <;> simp [hUser] <;> split_ifs <;> simp
    · rw [hMetrics, hUser]
      cases env.contentOpened <;> simp [foldl_contentBreakerOn_user]
  · intro hContent
    constructor
    · rw [hCalls]
      cases env.userOpened <;> simp [hContent] <;> split_ifs <;> simp
    · rw [hMetrics, hContent]
      simp only [Bool.false_eq_true, if_false]
      exact foldl_contentBreakerOn_content _ _ _ (foldl_userBreakerOn_content _ _)

/-- The annotation of any response written by a run in which the user-profile
dependency fell back names `user-profile-service`, and likewise for the content
dependency. -/
theorem recommendations_label {τ : Type} (env : Env τ) (userId : String)
    (metrics : BreakerMetrics) (status : Nat) (body : Body τ)
    (hBody : (recommendations env userId metrics).outcome = .json status body) :
    body.fallbackTriggeredFor =
      fallbackLabel (userFellBack env userId) (contentFellBack env) := by
  by_cases hBoth : userFellBack env userId = true ∧ contentFellBack env = true
  · rw [recommendations_outcome_degraded env userId metrics hBoth] at hBody
    cases hT : env.fetchTrending with
    | error e =>
      rw [hT] at hBody
      cases hBody
    | ok trending =>
      rw [hT] at hBody
      injection hBody with _ hEq
      rw [← hEq, hBoth.1, hBoth.2]
      rfl
  · rw [recommendations_outcome_normal env userId metrics hBoth] at hBody
    injection hBody with _ hEq
    rw [← hEq]
    rfl

/-- C7.  For each dependency whose breaker reads open when its block runs: the
handler does not fire the breaker (so the wrapped remote call is not started);
the dependency is marked as fallen back, its name is pushed on
`fallbackServices`, the default value is taken, and every response written
carries the name in its annotation, exactly as after a fired call that rejected
(same `fallbackServices`, same value, same response, whatever that call emitted
and whatever its error); and the dependency's counters in `breakerMetrics` are
the same after the request as before it.  When the breaker does not read open,
it is fired once and the counters move by the events that call emits. -/
theorem open_breaker_skips_call {τ : Type} (env : Env τ) (userId : String)
    (metrics : BreakerMetrics) :
    (env.userOpened = true →
      "userBreaker.fire" ∉ (recommendations env userId metrics).calls ∧
      (recommendations env userId metrics).metrics.user = metrics.user ∧
      (userProfileBlock env userId metrics).fallbackServices = ["user-profile-service"] ∧
      (userProfileBlock env userId metrics).value = defaultPreferences userId ∧
      (∀ (status : Nat) (body : Body τ),
        (recommendations env userId metrics).outcome = .json status body →
        body.fallbackTriggeredFor = fallbackLabel true (contentFellBack env)) ∧
      ∀ (emitted : List String) (e : CallError),
        (userProfileBlock
            { env with userOpened := false, userFire := fun _ => ⟨emitted, .error e⟩ }
            userId metrics).fallbackServices =
          (userProfileBlock env userId metrics).fallbackServices ∧
        (userProfileBlock
            { env with userOpened := false, userFire := fun _ => ⟨emitted, .error e⟩ }
            userId metrics).value =
          (userProfileBlock env userId metrics).value ∧
        (recommendations
            { env with userOpened := false, userFire := fun _ => ⟨emitted, .error e⟩ }
            userId metrics).outcome =
          (recommendations env userId metrics).outcome) ∧
    (env.contentOpened = true →
      "contentBreaker.fire" ∉ (recommendations env userId metrics).calls ∧
      (recommendations env userId metrics).metrics.content = metrics.content ∧
      (∀ (fallbackServices : List String) (m : BreakerMetrics) (calls : List String),
        (contentBlock env fallbackServices m calls).fallbackServices =
          fallbackServices ++ ["content-service"] ∧
        (contentBlock env fallbackServices m calls).value = []) ∧
      (∀ (status : Nat) (body : Body τ),
        (recommendations env userId metrics).outcome = .json status body →
        body.fallbackTriggeredFor = fallbackLabel (userFellBack env userId) true) ∧
      ∀ (emitted : List String) (e : CallError),
        (∀ (fallbackServices : List String) (m : BreakerMetrics) (calls : List String),
          (contentBlock
              { env with contentOpened := false, contentFire := ⟨emitted, .error e⟩ }
              fallbackServices m calls).fallbackServices =
            (contentBlock env fallbackServices m calls).fallbackServices ∧
          (contentBlock
              { env with contentOpened := false, contentFire := ⟨emitted, .error e⟩ }
              fallbackServices m calls).value =
            (contentBlock env fallbackServices m calls).value) ∧
        (recommendations
            { env with contentOpened := false, contentFire := ⟨emitted, .error e⟩ }
            userId metrics).outcome =
          (recommendations env userId metrics).outcome) ∧
    (env.userOpened = false →
      (recommendations env userId metrics).calls.count "userBreaker.fire" = 1 ∧
      (recommendations env userId metrics).metrics.user =
        ((env.userFire userId).emitted.foldl (fun m name => userBreakerOn name m)
          metrics).user) ∧
    (env.contentOpened = false →
      (recommendations env userId metrics).calls.count "contentBreaker.fire" = 1 ∧
      (recommendations env userId metrics).metrics.content =
        (env.contentFire.emitted.foldl (fun m name => contentBreakerOn name m)
          metrics).content) := by
  obtain ⟨hUserOpen, hContentOpen, hUserFired, hContentFired⟩ :=
    open_breaker_run env userId metrics
  refine ⟨?_, ?_, hUserFired, hContentFired⟩
  · intro hUser
    obtain ⟨hCalls, hCounters, hSame⟩ := hUserOpen hUser
    have hFell : userFellBack env userId = true := by simp [userFellBack, hUser]
    refine ⟨hCalls, hCounters, ?_, ?_, ?_, ?_⟩
    · simp [userProfileBlock, hUser]
    · simp [userProfileBlock, hUser]
    · intro status body hBody
      rw [recommendations_label env userId metrics status body hBody, hFell]
    · intro emitted e
      refine ⟨?_, ?_, hSame emitted e⟩
      · simp [userProfileBlock, hUser]
      · simp [userProfileBlock, hUser]
  · intro hContent
    obtain ⟨hCalls, hCounters, hSame⟩ := hContentOpen hContent
    have hFell : contentFellBack env = true := by simp [contentFellBack, hContent]
    refine ⟨hCalls, hCounters, ?_, ?_, ?_⟩
    · intro fallbackServices m calls
      simp [contentBlock, hContent]
    · intro status body hBody
      rw [recommendations_label env userId metrics status body hBody, hFell]
    · intro emitted e
      refine ⟨?_, hSame emitted e⟩
      intro fallbackServices m calls
      simp [contentBlock, hContent]

/-- C7 at a concrete request: the user breaker reads open, the content breaker
is fired and succeeds. -/
theorem open_breaker_skips_call_witness :
    "userBreaker.fire" ∉ (recommendations userOpenEnv "1" BreakerMetrics.initial).calls ∧
      (recommendations userOpenEnv "1" BreakerMetrics.initial).metrics.user =
        BreakerMetrics.initial.user ∧
      (userProfileBlock userOpenEnv "1" BreakerMetrics.initial).fallbackServices =
        ["user-profile-service"] ∧
      (userProfileBlock userOpenEnv "1" BreakerMetrics.initial).value =
        defaultPreferences "1" ∧
      (∀ (status : Nat) (body : Body (List TrendingMovie)),
        (recommendations userOpenEnv "1" BreakerMetrics.initial).outcome =
          .json status body →
        body.fallbackTriggeredFor = fallbackLabel true (contentFellBack userOpenEnv)) ∧
      ∀ (emitted : List String) (e : CallError),
        (userProfileBlock
            { userOpenEnv with userOpened := false, userFire := fun _ => ⟨emitted, .error e⟩ }
            "1" BreakerMetrics.initial).fallbackServices =
          (userProfileBlock userOpenEnv "1" BreakerMetrics.initial).fallbackServices ∧
        (userProfileBlock
            { userOpenEnv with userOpened := false, userFire := fun _ => ⟨emitted, .error e⟩ }
            "1" BreakerMetrics.initial).value =
          (userProfileBlock userOpenEnv "1" BreakerMetrics.initial).value ∧
        (recommendations
            { userOpenEnv with userOpened := false, userFire := fun _ => ⟨emitted, .error e⟩ }
            "1" BreakerMetrics.initial).outcome =
          (recommendations userOpenEnv "1" BreakerMetrics.initial).outcome :=
  (open_breaker_skips_call userOpenEnv "1" BreakerMetrics.initial).1 rfl

/-! ## The simulation handler: theorems -/

/-- C10, as stated, fails.  The pair `("content", "fail")` is valid, the command
is forwarded to the content service, and the upstream refuses the connection:
the awaited `axios.post` rejects, the rejection leaves the handler, and no 200
confirmation is written. -/
theorem simulate_valid_without_confirmation :
    ["user-profile", "content"].contains "content" = true ∧
      ["normal", "slow", "fail"].contains "fail" = true ∧
      (simulate refusingSimulateEnv "content" "fail").posts =
        ["http://localhost:8082/internal/simulate/fail"] ∧
      (simulate refusingSimulateEnv "content" "fail").outcome =
        .thrown (.callError "ECONNREFUSED") ∧
      ¬ ∃ body : SimulateBody,
          (simulate refusingSimulateEnv "content" "fail").outcome = .json 200 body := by
  refine ⟨by decide, by decide, by decide, by decide, ?_⟩
  rintro ⟨body, hBody⟩
  have hRun : (simulate refusingSimulateEnv "content" "fail").outcome =
      .thrown (.callError "ECONNREFUSED") := by decide
  rw [hRun] at hBody
  cases hBody

/-- C10, amended.  The handler answers 400 exactly when `service` is not one of
`user-profile`, `content` or `behavior` is not one of `normal`, `slow`, `fail`,
and then it posts nothing.  Otherwise it posts exactly one command, to
`/internal/simulate/<behavior>` of the user-profile service when `service` is
`user-profile` and of the content service when it is `content`; it answers 200
with the confirmation message when that post succeeds, and when the post
rejects the error leaves the handler and no response is written by it. -/
theorem simulate_validates_and_forwards (env : SimulateEnv) (service behavior : String) :
    ((∃ body, (simulate env service behavior).outcome = .json 400 body) ↔
      (service ∉ ["user-profile", "content"] ∨ behavior ∉ ["normal", "slow", "fail"])) ∧
    ((service ∉ ["user-profile", "content"] ∨ behavior ∉ ["normal", "slow", "fail"]) →
      (simulate env service behavior).posts = []) ∧
    (service ∈ ["user-profile", "content"] → behavior ∈ ["normal", "slow", "fail"] →
      (service = "user-profile" →
        (simulate env service behavior).posts =
          [env.USER_PROFILE_URL ++ "/internal/simulate/" ++ behavior]) ∧
      (service = "content" →
        (simulate env service behavior).posts =
          [env.CONTENT_URL ++ "/internal/simulate/" ++ behavior]) ∧
      (∀ target, (simulate env service behavior).posts = [target] → env.post target = .ok () →
        (simulate env service behavior).outcome =
          .json 200 (.message (service ++ " set to " ++ behavior))) ∧
      (∀ target e, (simulate env service behavior).posts = [target] →
        env.post target = .error e →
        (simulate env service behavior).outcome = .thrown e)) := by
  by_cases hs : service ∈ ["user-profile", "content"]
  · by_cases hb : behavior ∈ ["normal", "slow", "fail"]
    · have hs' : ["user-profile", "content"].contains service = true := by
        simpa using hs
      have hb' : ["normal", "slow", "fail"].contains behavior = true := by
        simpa using hb
      refine ⟨⟨?_, ?_⟩, ?_, ?_⟩
      · rintro ⟨body, hBody⟩
        simp only [simulate, hs', hb', Bool.not_true, Bool.false_eq_true, if_false] at hBody
        split at hBody <;> simp at hBody
      · rintro (h | h)
        · exact absurd hs h
        · exact absurd hb h
      · rintro (h | h)
        · exact absurd hs h
        · exact absurd hb h
      · intro _ _
        have hPosts : (simulate env service behavior).posts =
            [if service = "user-profile" then
                env.USER_PROFILE_URL ++ "/internal/simulate/" ++ behavior
              else env.CONTENT_URL ++ "/internal/simulate/" ++ behavior] := by
          simp only [simulate, hs', hb', Bool.not_true, Bool.false_eq_true, if_false]
          split <;> rfl
        have hOutcome : (simulate env service behavior).outcome =
            match env.post (if service = "user-profile" then
                env.USER_PROFILE_URL ++ "/internal/simulate/" ++ behavior
              else env.CONTENT_URL ++ "/internal/simulate/" ++ behavior) with
            | .error e => .thrown e
            | .ok _ => .json 200 (.message (service ++ " set to " ++ behavior)) := by
          simp only [simulate, hs', hb', Bool.not_true, Bool.false_eq_true, if_false]
          split <;> rfl
        refine ⟨?_, ?_, ?_, ?_⟩
        · intro hEq
          rw [hPosts, if_pos hEq]
        · intro hEq
          have hNe : ¬ service = "user-profile" := by
            rw [hEq]
            decide
          rw [hPosts, if_neg hNe]
        · intro target hTarget hOk
          rw [hPosts] at hTarget
          injection hTarget with hTarget _
          rw [hOutcome, hTarget, hOk]
        · intro target e hTarget hErr
          rw [hPosts] at hTarget
          injection hTarget with hTarget _
          rw [hOutcome, hTarget, hErr]
    · have hs' : ["user-profile", "content"].contains service = true := by
        simpa using hs
      have hb' : ["normal", "slow", "fail"].contains behavior = false := by
        simpa using hb
      refine ⟨⟨fun _ => Or.inr hb, fun _ => ⟨.error "Invalid behavior", ?_⟩⟩, ?_, ?_⟩
      · simp only [simulate, hs', hb', Bool.not_true, Bool.false_eq_true, if_false,
          Bool.not_false, if_true]
      · intro _
        simp only [simulate, hs', hb', Bool.not_true, Bool.false_eq_true, if_false,
          Bool.not_false, if_true]
      · intro _ h
        exact absurd h hb
  · have hs' : ["user-profile", "content"].contains service = false := by
      simpa using hs
    refine ⟨⟨fun _ => Or.inl hs, fun _ => ⟨.error "Invalid service", ?_⟩⟩, ?_, ?_⟩
    · simp only [simulate, hs', Bool.not_false, if_true]
    · intro _
      simp only [simulate, hs', Bool.not_false, if_true]
    · intro h
      exact absurd h hs

/-- C10, amended, at concrete requests: a valid command to an upstream that
accepts it is confirmed with 200; an unknown service is answered 400 and
nothing is posted. -/
theorem simulate_validates_and_forwards_witness :
    (simulate acceptingSimulateEnv "user-profile" "slow").posts =
        ["http://localhost:8081" ++ "/internal/simulate/" ++ "slow"] ∧
      (simulate acceptingSimulateEnv "user-profile" "slow").outcome =
        .json 200 (.message "user-profile set to slow") ∧
      (simulate acceptingSimulateEnv "billing" "slow").posts = [] :=
  ⟨((simulate_validates_and_forwards acceptingSimulateEnv "user-profile" "slow").2.2
      (by decide) (by decide)).1 rfl,
    by decide,
    (simulate_validates_and_forwards acceptingSimulateEnv "billing" "slow").2.1
      (Or.inl (by decide))⟩

/-! ## The breaker state machine: theorems -/

theorem transitionPath_append {s m t : BreakerState} {first others : List Transition}
    (hFirst : TransitionPath s first m) (hOthers : TransitionPath m others t) :
    TransitionPath s (first ++ others) t := by
  induction first generalizing s with
  | nil =>
    simp only [TransitionPath] at hFirst
    subst hFirst
    simpa using hOthers
  | cons change rest ih =>
    obtain ⟨hStart, hAllowed, hRest⟩ := hFirst
    exact ⟨hStart, hAllowed, ih hRest⟩

theorem transitionPath_allowed {s t : BreakerState} {changes : List Transition}
    (hPath : TransitionPath s changes t) : ∀ change ∈ changes, change ∈ allowedTransitions := by
  induction changes generalizing s with
  | nil => intro change hMem; cases hMem
  | cons head rest ih =>
    obtain ⟨_, hAllowed, hRest⟩ := hPath
    intro change hMem
    rcases List.mem_cons.mp hMem with h | h
    · rw [h]; exact hAllowed
    · exact ih hRest change h

theorem elapse_transitionPath (b : CircuitBreaker) (now : Nat) :
    TransitionPath b.state (b.elapse now).2 (b.elapse now).1.state := by
  unfold CircuitBreaker.elapse
  split_ifs with h
  · simp [TransitionPath, allowedTransitions, h.1]
  · simp [TransitionPath]

theorem call_transitionPath {α : Type} (b : CircuitBreaker) (now : Nat) (fn : CallOutcome α) :
    TransitionPath b.state (b.call now fn).transitions (b.call now fn).breaker.state := by
  unfold CircuitBreaker.call
  cases hState : b.state <;> cases fn <;> simp only [] <;> split_ifs <;>
    simp_all [TransitionPath, allowedTransitions]


theorem recommendations_fires_user {τ : Type} (env : Env τ) (userId : String)
    (metrics : BreakerMetrics) :
    (recommendations env userId metrics).calls.contains "userBreaker.fire" =
      !env.userOpened := by
  rw [recommendations_calls]
  by_cases hBoth : userFellBack env userId = true ∧ contentFellBack env = true
  · rw [if_pos hBoth]
    cases env.userOpened <;> cases env.contentOpened <;> simp
  · rw [if_neg hBoth]
    cases env.userOpened <;> cases env.contentOpened <;> simp

theorem recommendations_fires_content {τ : Type} (env : Env τ) (userId : String)
    (metrics : BreakerMetrics) :
    (recommendations env userId metrics).calls.contains "contentBreaker.fire" =
      !env.contentOpened := by
  rw [recommendations_calls]
  by_cases hBoth : userFellBack env userId = true ∧ contentFellBack env = true
  · rw [if_pos hBoth]
    cases env.userOpened <;> cases env.contentOpened <;> simp
  · rw [if_neg hBoth]
    cases env.userOpened <;> cases env.contentOpened <;> simp

theorem step_user_transitionPath {τ : Type} (g : Gateway) (op : Operation τ) :
    TransitionPath g.userBreaker.state (g.step op).userTransitions
      (g.step op).gateway.userBreaker.state := by
  cases op with
  | health => simp [Gateway.step, TransitionPath]
  | metrics => simp [Gateway.step, TransitionPath]
  | simulate service behavior post => simp [Gateway.step, TransitionPath]
  | elapse now => exact elapse_transitionPath g.userBreaker now
  | recommendations userId userAt profile contentAt movies trending =>
    simp only [Gateway.step]
    split_ifs
    · exact call_transitionPath g.userBreaker userAt profile
    · simp [TransitionPath]

theorem step_content_transitionPath {τ : Type} (g : Gateway) (op : Operation τ) :
    TransitionPath g.contentBreaker.state (g.step op).contentTransitions
      (g.step op).gateway.contentBreaker.state := by
  cases op with
  | health => simp [Gateway.step, TransitionPath]
  | metrics => simp [Gateway.step, TransitionPath]
  | simulate service behavior post => simp [Gateway.step, TransitionPath]
  | elapse now => exact elapse_transitionPath g.contentBreaker now
  | recommendations userId userAt profile contentAt movies trending =>
    simp only [Gateway.step]
    split_ifs
    · exact call_transitionPath g.contentBreaker contentAt movies
    · simp [TransitionPath]

theorem run_transitionPath {τ : Type} (g : Gateway) (ops : List (Operation τ)) :
    TransitionPath g.userBreaker.state (g.run ops).userTransitions
        (g.run ops).gateway.userBreaker.state ∧
      TransitionPath g.contentBreaker.state (g.run ops).contentTransitions
        (g.run ops).gateway.contentBreaker.state := by
  induction ops generalizing g with
  | nil => simp [Gateway.run, TransitionPath]
  | cons op rest ih =>
    simp only [Gateway.run]
    exact ⟨transitionPath_append (step_user_transitionPath g op) (ih (g.step op).gateway).1,
      transitionPath_append (step_content_transitionPath g op) (ih (g.step op).gateway).2⟩

/-- C9.  For both breakers, from any gateway state and along any sequence of
operations (requests to the four endpoints, time passing): the state changes of
the breaker form a path from its state before to its state after in which every
change is one of CLOSED→OPEN, OPEN→HALF_OPEN, HALF_OPEN→CLOSED, HALF_OPEN→OPEN;
in particular OPEN→CLOSED and CLOSED→HALF_OPEN never occur.  The gateway itself
never sets a breaker's state: after one operation a breaker is what it was, or
what time passing made of it, or the result of its own `call`, fired by the
recommendations handler on a breaker that did not read open. -/
theorem breaker_transitions_allowed {τ : Type} (g : Gateway) (ops : List (Operation τ)) :
    TransitionPath g.userBreaker.state (g.run ops).userTransitions
        (g.run ops).gateway.userBreaker.state ∧
      TransitionPath g.contentBreaker.state (g.run ops).contentTransitions
        (g.run ops).gateway.contentBreaker.state ∧
      (∀ change ∈ (g.run ops).userTransitions ++ (g.run ops).contentTransitions,
        change ∈ allowedTransitions ∧ change ≠ (.OPEN, .CLOSED) ∧
          change ≠ (.CLOSED, .HALF_OPEN)) ∧
      (∀ op : Operation τ,
        ((g.step op).gateway.userBreaker = g.userBreaker ∨
          (∃ now, (g.step op).gateway.userBreaker = (g.userBreaker.elapse now).1) ∨
          (∃ now profile, g.userBreaker.state ≠ .OPEN ∧
            (g.step op).gateway.userBreaker =
              (g.userBreaker.call now (profile : CallOutcome UserPreferences)).breaker)) ∧
        ((g.step op).gateway.contentBreaker = g.contentBreaker ∨
          (∃ now, (g.step op).gateway.contentBreaker = (g.contentBreaker.elapse now).1) ∨
          (∃ now movies, g.contentBreaker.state ≠ .OPEN ∧
            (g.step op).gateway.contentBreaker =
              (g.contentBreaker.call now (movies : CallOutcome (List Movie))).breaker))) := by
  have hPaths := run_transitionPath g ops
  refine ⟨hPaths.1, hPaths.2, ?_, ?_⟩
  · intro change hMem
    have hAllowed : change ∈ allowedTransitions := by
      rcases List.mem_append.mp hMem with h | h
      · exact transitionPath_allowed hPaths.1 change h
      · exact transitionPath_allowed hPaths.2 change h
    refine ⟨hAllowed, ?_, ?_⟩ <;>
      · intro hEq
        rw [hEq] at hAllowed
        revert hAllowed
        decide
  · intro op
    cases op with
    | health => exact ⟨Or.inl rfl, Or.inl rfl⟩
    | metrics => exact ⟨Or.inl rfl, Or.inl rfl⟩
    | simulate service behavior post => exact ⟨Or.inl rfl, Or.inl rfl⟩
    | elapse now => exact ⟨Or.inr (Or.inl ⟨now, rfl⟩), Or.inr (Or.inl ⟨now, rfl⟩)⟩
    | recommendations userId userAt profile contentAt movies trending =>
      simp only [Gateway.step, recommendations_fires_user, recommendations_fires_content]
      constructor
      · by_cases hOpen : g.userBreaker.state = .OPEN
        · left
          simp [Gateway.env, hOpen]
        · right; right
          exact ⟨userAt, profile, hOpen, by simp [Gateway.env, hOpen]⟩
      · by_cases hOpen : g.contentBreaker.state = .OPEN
        · left
          simp [Gateway.env, hOpen]
        · right; right
          exact ⟨contentAt, movies, hOpen, by simp [Gateway.env, hOpen]⟩

/-- C9 at a concrete run: the changes of the user-profile breaker are
CLOSED→OPEN, OPEN→HALF_OPEN, HALF_OPEN→CLOSED, and they form an allowed path. -/
theorem breaker_transitions_allowed_witness :
    (Gateway.run (Gateway.start 1) recoveryRun).userTransitions =
        [(.CLOSED, .OPEN), (.OPEN, .HALF_OPEN), (.HALF_OPEN, .CLOSED)] ∧
      TransitionPath (Gateway.start 1).userBreaker.state
        (Gateway.run (Gateway.start 1) recoveryRun).userTransitions
        (Gateway.run (Gateway.start 1) recoveryRun).gateway.userBreaker.state :=
  ⟨by decide, (breaker_transitions_allowed (Gateway.start 1) recoveryRun).1⟩

end Recommendation
